import Mathlib

/-!
Verification of the wupf plugin-framework core (`src/lib.rs`) against its
specification. The code is embedded shallowly: the `OnceLock`/`Mutex`
synchronisation primitives of the external `wut` crate are modelled by an
`Option`-valued cell and a plain value container (execution is sequential in
this model, so holding the lock is owning the value); a Rust panic (a failed
`expect`/`unwrap`, or a dereference of an invalid buffer pointer) is modelled
by the trampoline returning `none`, i.e. a fatal abort of that callback
invocation. Host input-state records (`VPADStatus`, `KPADStatus`) and the
`gamepad::State` bitfield are modelled as natural-number bitfields, merged by
bitwise AND, following the description the spec gives of the external `wut` types
("state bitfield, merge-able via bitwise AND"). The error guard
`GamepadError::try_from(*error).is_err()` is external code of `wut`; it is
kept abstract as a boolean predicate `indicatesError` on the raw error code
(the spec identifies the guard with "the error-status pointer indicates an
error condition"). Each trampoline additionally returns the list of user
callbacks it invoked, in order, so that claims about "the callback is not
invoked" and about hook-chaining order are statable.
-/

namespace Wupf

/-- Raw controller-state bitfield carried in a host `VPADStatus` record.
Modelled from the spec: the host record is an out-of-scope `wut` type,
described as a bitfield merge-able via bitwise AND. -/
abbrev VPADStatus := Nat

/-- Raw controller-state bitfield carried in a host `KPADStatus` record.
Modelled from the spec, like `VPADStatus`. -/
abbrev KPADStatus := Nat

/-- The `gamepad::State` bitfield of the external `wut` crate.
Modelled from the spec: a state bitfield merge-able via bitwise AND. -/
abbrev State := Nat

/-- The `gamepad::Port` identifier of the external `wut` crate: either the
DRC gamepad (the VPAD device) or a WPAD channel. Modelled from the spec:
"the family/port distinction is carried entirely in the `port` value". -/
inductive Port where
  | DRC : Port
  | wpad : Nat → Port
deriving DecidableEq, Repr

/-- `gamepad::Port::from_wpad(chan)` of the external `wut` crate: the port
designating WPAD channel `chan`. Modelled from the spec. -/
def Port.from_wpad (chan : Nat) : Port := Port.wpad chan

/-- `gamepad::State::from(raw)` of the external `wut` crate: reads the state
bits out of a raw host record. Modelled from the spec; with records and
states both embedded as bitfields the conversion carries the bits over. -/
def State.ofRaw (raw : Nat) : State := raw

/-- `wut::sync::Mutex<P>`: in this sequential embedding the lock degenerates
to ownership of the protected value. -/
structure Mutex (P : Type) where
  data : P
deriving DecidableEq, Repr

/-- `Mutex::lock().unwrap()`: exclusive access to the protected value. -/
def Mutex.lock {P : Type} (m : Mutex P) : P := m.data

/-- `wut::sync::OnceLock<T>`: a cell that is empty until its first `set`. -/
structure OnceLock (T : Type) where
  value : Option T
deriving DecidableEq, Repr

/-- `OnceLock::new()`: the empty cell. -/
def OnceLock.new (T : Type) : OnceLock T := ⟨none⟩

/-- `OnceLock::set(v)`: installs `v` iff the cell is empty; the boolean
records whether the set succeeded (Rust returns `Result<(), T>`). -/
def OnceLock.set {T : Type} (c : OnceLock T) (v : T) : OnceLock T × Bool :=
  match c.value with
  | some _ => (c, false)
  | none => (⟨some v⟩, true)

/-- `OnceLock::get()`: the stored value, or `none` while the cell is empty. -/
def OnceLock.get {T : Type} (c : OnceLock T) : Option T := c.value

/-- `Handler<P>` of `src/lib.rs`: the plugin handler holding the singleton
plugin state in a `OnceLock<Mutex<P>>`. -/
structure Handler (P : Type) where
  inner : OnceLock (Mutex P)
deriving DecidableEq, Repr

/-- `Handler::new()`: an empty handler. -/
def Handler.new (P : Type) : Handler P := ⟨⟨none⟩⟩

/-- `Handler::set(p)` of `src/lib.rs`:
`let _ = self.inner.set(Mutex::new(p));` — the success flag is discarded. -/
def Handler.set {P : Type} (h : Handler P) (p : P) : Handler P :=
  ⟨(h.inner.set (Mutex.mk p)).1⟩

/-- `Handler::get()` of `src/lib.rs`:
`self.inner.get().expect("Handler not initialized")` — `none` models the
fatal panic of `expect` on an empty cell. -/
def Handler.get {P : Type} (h : Handler P) : Option (Mutex P) :=
  h.inner.get

/-- The user-supplied trait methods of `Plugin`, `OnInput` and `OnUpdate`.
A `&mut self` method is embedded as a function from the state to the updated
state; `on_input` additionally returns the `State` handed back to the
framework. -/
structure PluginImpl (P : Type) where
  on_deinit : P → P
  on_start : P → P
  on_exit : P → P
  on_update : P → P
  on_input : P → Port → State → P × State

/-- Observable callback events, recorded in invocation order: the chained
original host function ran, the user `on_input` callback ran (with the port
and state it received), or the user `on_update` callback ran. -/
inductive Event where
  | originalCalled : Event
  | onInputCalled : Port → State → Event
  | onUpdateCalled : Event
deriving DecidableEq, Repr

/-- `Plugin::ffi_on_init` of `src/lib.rs`:
`Self::handler().set(Self::on_init())`. The value `r` is the result of this
`on_init()` call made by this invocation. -/
def ffi_on_init {P : Type} (h : Handler P) (r : P) : Handler P :=
  h.set r

/-- `Plugin::ffi_on_deinit` of `src/lib.rs`: get the handler (fatal if
uninitialised), lock, and run the user `on_deinit` finaliser on the
state; the mutated value is written back through the lock. -/
def ffi_on_deinit {P : Type} (impl : PluginImpl P) (h : Handler P) :
    Option (Handler P) :=
  match h.get with
  | none => none
  | some m => some ⟨⟨some (Mutex.mk (impl.on_deinit m.lock))⟩⟩

/-- `Plugin::ffi_on_start` of `src/lib.rs`: get, lock, run `on_start`. -/
def ffi_on_start {P : Type} (impl : PluginImpl P) (h : Handler P) :
    Option (Handler P) :=
  match h.get with
  | none => none
  | some m => some ⟨⟨some (Mutex.mk (impl.on_start m.lock))⟩⟩

/-- `Plugin::ffi_on_exit` of `src/lib.rs`: get, lock, run `on_exit`. -/
def ffi_on_exit {P : Type} (impl : PluginImpl P) (h : Handler P) :
    Option (Handler P) :=
  match h.get with
  | none => none
  | some m => some ⟨⟨some (Mutex.mk (impl.on_exit m.lock))⟩⟩

/-- `OnUpdate::ffi_on_update` of `src/lib.rs`: get, lock, run `on_update`.
Also returns the callback events of the invocation. -/
def ffi_on_update {P : Type} (impl : PluginImpl P) (h : Handler P) :
    Option (Handler P × List Event) :=
  match h.get with
  | none => none
  | some m =>
      some (⟨⟨some (Mutex.mk (impl.on_update m.lock))⟩⟩, [Event.onUpdateCalled])

/-- `OnInput::ffi_on_vpad` of `src/lib.rs`. `indicatesError` embeds the
external guard `GamepadError::try_from(*error).is_err()`; when it holds the
trampoline returns at once, untouched buffers and no callback. Otherwise it
gets the handler (fatal if uninitialised), locks, and merges the state
returned by `on_input(Port::DRC, State::from(*buffers))` into the first
buffer record by bitwise AND (`*buffers &= ...`); `chan` and `count` are the
ignored `_chan`/`_count` arguments. An empty buffer list models an invalid
buffer pointer, whose dereference is fatal. -/
def ffi_on_vpad {P : Type} (impl : PluginImpl P) (indicatesError : Nat → Bool)
    (h : Handler P) (chan : Nat) (buffers : List VPADStatus) (count : Nat)
    (error : Nat) : Option (Handler P × List VPADStatus × List Event) :=
  if indicatesError error then
    some (h, buffers, [])
  else
    match h.get with
    | none => none
    | some m =>
        match buffers with
        | [] => none
        | b :: rest =>
            let pr := impl.on_input m.lock Port.DRC (State.ofRaw b)
            some (⟨⟨some (Mutex.mk pr.1)⟩⟩,
                  (b &&& pr.2) :: rest,
                  [Event.onInputCalled Port.DRC (State.ofRaw b)])

/-- `OnInput::ffi_on_kpad` of `src/lib.rs`: as `ffi_on_vpad`, but the port
passed to `on_input` is `Port::from_wpad(chan)` and the record merged is the
first `KPADStatus` record (`*data &= ...`); `size` is the ignored `_size`
argument. -/
def ffi_on_kpad {P : Type} (impl : PluginImpl P) (indicatesError : Nat → Bool)
    (h : Handler P) (chan : Nat) (data : List KPADStatus) (size : Nat)
    (error : Nat) : Option (Handler P × List KPADStatus × List Event) :=
  if indicatesError error then
    some (h, data, [])
  else
    match h.get with
    | none => none
    | some m =>
        match data with
        | [] => none
        | d :: rest =>
            let pr := impl.on_input m.lock (Port.from_wpad chan) (State.ofRaw d)
            some (⟨⟨some (Mutex.mk pr.1)⟩⟩,
                  (d &&& pr.2) :: rest,
                  [Event.onInputCalled (Port.from_wpad chan) (State.ofRaw d)])

/-- The chained `VPADRead` hook generated by `hook_on_input!`: call the
original `hooked` function first (it fills the buffers and the error code
and yields the host status), then run the plugin trampoline on the filled
buffers, and return the original status unchanged. `hooked` maps the
arguments to (status, written buffers, written error code). -/
def plugin_VPADRead {P : Type} (impl : PluginImpl P)
    (indicatesError : Nat → Bool)
    (hooked : Nat → List VPADStatus → Nat → Nat → Int × List VPADStatus × Nat)
    (h : Handler P) (chan : Nat) (buffers : List VPADStatus) (count : Nat)
    (error : Nat) :
    Option (Int × Handler P × List VPADStatus × List Event) :=
  let res := hooked chan buffers count error
  match ffi_on_vpad impl indicatesError h chan res.2.1 count res.2.2 with
  | none => none
  | some (h2, bufs2, evs) =>
      some (res.1, h2, bufs2, Event.originalCalled :: evs)

/-- The chained `KPADReadEx` hook generated by `hook_on_input!`: original
first, then the plugin trampoline, original status returned unchanged. -/
def plugin_KPADReadEx {P : Type} (impl : PluginImpl P)
    (indicatesError : Nat → Bool)
    (hooked : Nat → List KPADStatus → Nat → Nat → Int × List KPADStatus × Nat)
    (h : Handler P) (chan : Nat) (data : List KPADStatus) (size : Nat)
    (error : Nat) :
    Option (Int × Handler P × List KPADStatus × List Event) :=
  let res := hooked chan data size error
  match ffi_on_kpad impl indicatesError h chan res.2.1 size res.2.2 with
  | none => none
  | some (h2, data2, evs) =>
      some (res.1, h2, data2, Event.originalCalled :: evs)

/-- The chained `GX2SwapScanBuffers` hook generated by `hook_on_update!`:
the original screen swap runs first, then the plugin trampoline. -/
def plugin_GX2SwapScanBuffers {P : Type} (impl : PluginImpl P)
    (h : Handler P) : Option (Handler P × List Event) :=
  match ffi_on_update impl h with
  | none => none
  | some (h2, evs) => some (h2, Event.originalCalled :: evs)

/-- A sequence of invocations of the init trampoline: `rs` lists the values
returned by the successive `on_init()` calls. Besides folding
`Handler::set` over the sequence, the number of set attempts that succeeded
is counted (the Rust code discards the `Result` of each attempt). -/
def runInits {P : Type} (h : Handler P) : List P → Handler P × Nat
  | [] => (h, 0)
  | r :: rs =>
      let sc := h.inner.set (Mutex.mk r)
      let tail := runInits ⟨sc.1⟩ rs
      (tail.1, (if sc.2 then 1 else 0) + tail.2)

/-- A concrete plugin over `Nat` state, used to instantiate theorems with
hypotheses at concrete inputs. -/
def implN : PluginImpl Nat where
  on_deinit := fun p => p + 1
  on_start := fun p => p + 2
  on_exit := fun p => p + 3
  on_update := fun p => p + 4
  on_input := fun p _ s => (p + s, s + 10)

/-- A concrete error guard: every nonzero raw error code indicates an
error condition. -/
def indN : Nat → Bool := fun e => e != 0

/-- The handler component of `runInits` is the fold of the init trampoline
over the successive `on_init` results. -/
theorem runInits_fst_eq_foldl {P : Type} (rs : List P) (h : Handler P) :
    (runInits h rs).1 = List.foldl ffi_on_init h rs := by
  induction rs generalizing h with
  | nil => rfl
  | cons r rs ih => simpa [runInits, ffi_on_init, Handler.set] using ih _

/-- Once the cell is set, further init invocations change nothing and no
set attempt succeeds. -/
theorem runInits_of_set {P : Type} (rs : List P) (m : Mutex P) :
    runInits (⟨⟨some m⟩⟩ : Handler P) rs = (⟨⟨some m⟩⟩, 0) := by
  induction rs with
  | nil => rfl
  | cons r rs ih => simp [runInits, OnceLock.set, ih]

/-- Claim C2: for every sequence of N ≥ 1 invocations of the init
trampoline, exactly one `set` attempt succeeds, the stored singleton value
is the result of the first `on_init` call, and the results of all later
calls are discarded (the handler afterwards still holds the first result);
later set attempts are silent no-ops, not errors. -/
theorem init_sets_exactly_once {P : Type} (r : P) (rest : List P) :
    runInits (Handler.new P) (r :: rest)
      = (List.foldl ffi_on_init (Handler.new P) (r :: rest), 1)
    ∧ (List.foldl ffi_on_init (Handler.new P) (r :: rest)).inner.value
      = some (Mutex.mk r) := by
  have h1 : runInits (Handler.new P) (r :: rest)
      = ((⟨⟨some (Mutex.mk r)⟩⟩ : Handler P), 1) := by
    simp [runInits, Handler.new, OnceLock.set, runInits_of_set]
  have h2 : (runInits (Handler.new P) (r :: rest)).1
      = List.foldl ffi_on_init (Handler.new P) (r :: rest) :=
    runInits_fst_eq_foldl _ _
  rw [h1] at h2
  exact ⟨by rw [h1, ← h2], by rw [← h2]⟩

/-- Claim C3: when the error-status value indicates an error condition, both
input trampolines return immediately: the handler and the buffer records are
returned bit-identical to their inputs and no user callback event occurs. -/
theorem error_short_circuit {P : Type} (impl : PluginImpl P)
    (indicatesError : Nat → Bool) (h : Handler P)
    (chan count size error : Nat) (buffers : List VPADStatus)
    (data : List KPADStatus) (herr : indicatesError error = true) :
    ffi_on_vpad impl indicatesError h chan buffers count error
      = some (h, buffers, [])
    ∧ ffi_on_kpad impl indicatesError h chan data size error
      = some (h, data, []) := by
  constructor <;> simp [ffi_on_vpad, ffi_on_kpad, herr]

/-- Witness for `error_short_circuit` at a concrete input. -/
theorem error_short_circuit_witness :
    indN 5 = true
    ∧ (ffi_on_vpad implN indN (Handler.new Nat) 0 [11, 7] 2 5
        = some (Handler.new Nat, [11, 7], [])
      ∧ ffi_on_kpad implN indN (Handler.new Nat) 1 [9] 1 5
        = some (Handler.new Nat, [9], [])) :=
  ⟨by decide, error_short_circuit implN indN (Handler.new Nat) 0 2 1 5 [11, 7] [9]
    (by decide)⟩

/-- Claim C1: on an input trampoline invocation with no error condition, the
merged first record equals the bitwise AND of its original bits `B` with the
bits `R` returned by `on_input` — at every bit position the result bit is
`B.testBit i && R.testBit i`, so the callback can clear bits of `B` but can
never set a bit that was not already set in `B`. Holds for both the VPAD and
the KPAD trampoline. -/
theorem input_merge_is_mask {P : Type} (impl : PluginImpl P)
    (indicatesError : Nat → Bool) (p : P) (chan count size error : Nat)
    (b : VPADStatus) (rest : List VPADStatus)
    (d : KPADStatus) (drest : List KPADStatus)
    (hnoerr : indicatesError error = false) :
    (ffi_on_vpad impl indicatesError ⟨⟨some (Mutex.mk p)⟩⟩ chan (b :: rest)
        count error
      = some (⟨⟨some (Mutex.mk (impl.on_input p Port.DRC (State.ofRaw b)).1)⟩⟩,
              (b &&& (impl.on_input p Port.DRC (State.ofRaw b)).2) :: rest,
              [Event.onInputCalled Port.DRC (State.ofRaw b)]))
    ∧ (∀ i, (b &&& (impl.on_input p Port.DRC (State.ofRaw b)).2).testBit i
        = (b.testBit i
            && ((impl.on_input p Port.DRC (State.ofRaw b)).2).testBit i))
    ∧ (ffi_on_kpad impl indicatesError ⟨⟨some (Mutex.mk p)⟩⟩ chan (d :: drest)
        size error
      = some (⟨⟨some (Mutex.mk
                (impl.on_input p (Port.from_wpad chan) (State.ofRaw d)).1)⟩⟩,
              (d &&& (impl.on_input p (Port.from_wpad chan)
                (State.ofRaw d)).2) :: drest,
              [Event.onInputCalled (Port.from_wpad chan) (State.ofRaw d)]))
    ∧ (∀ i, (d &&& (impl.on_input p (Port.from_wpad chan)
          (State.ofRaw d)).2).testBit i
        = (d.testBit i
            && ((impl.on_input p (Port.from_wpad chan)
              (State.ofRaw d)).2).testBit i)) := by
  refine ⟨?_, fun i => Nat.testBit_land .., ?_, fun i => Nat.testBit_land ..⟩ <;>
    simp [ffi_on_vpad, ffi_on_kpad, hnoerr, Handler.get, OnceLock.get, Mutex.lock]

/-- Witness for `input_merge_is_mask` at a concrete input. -/
theorem input_merge_is_mask_witness :
    (ffi_on_vpad implN indN ⟨⟨some (Mutex.mk 0)⟩⟩ 2 (11 :: [5]) 1 0
      = some (⟨⟨some (Mutex.mk (implN.on_input 0 Port.DRC (State.ofRaw 11)).1)⟩⟩,
              (11 &&& (implN.on_input 0 Port.DRC (State.ofRaw 11)).2) :: [5],
              [Event.onInputCalled Port.DRC (State.ofRaw 11)]))
    ∧ (∀ i, (11 &&& (implN.on_input 0 Port.DRC (State.ofRaw 11)).2).testBit i
        = (Nat.testBit 11 i
            && ((implN.on_input 0 Port.DRC (State.ofRaw 11)).2).testBit i))
    ∧ (ffi_on_kpad implN indN ⟨⟨some (Mutex.mk 0)⟩⟩ 2 (7 :: []) 1 0
      = some (⟨⟨some (Mutex.mk
                (implN.on_input 0 (Port.from_wpad 2) (State.ofRaw 7)).1)⟩⟩,
              (7 &&& (implN.on_input 0 (Port.from_wpad 2)
                (State.ofRaw 7)).2) :: [],
              [Event.onInputCalled (Port.from_wpad 2) (State.ofRaw 7)]))
    ∧ (∀ i, (7 &&& (implN.on_input 0 (Port.from_wpad 2)
          (State.ofRaw 7)).2).testBit i
        = (Nat.testBit 7 i
            && ((implN.on_input 0 (Port.from_wpad 2)
              (State.ofRaw 7)).2).testBit i)) :=
  input_merge_is_mask implN indN 0 2 1 1 0 11 [5] 7 [] (by decide)

/-- Claim C4: on a handler whose cell has never been set, `Handler::get`
aborts fatally (`none`, the `expect` panic) rather than yielding any value,
and so does every trampoline that accesses the singleton: none of them
returns a handler, a buffer, or a callback event. -/
theorem access_before_init_fails {P : Type} (impl : PluginImpl P)
    (indicatesError : Nat → Bool) (h : Handler P)
    (chan count size error : Nat) (buffers : List VPADStatus)
    (data : List KPADStatus) (hempty : h.inner.value = none)
    (hnoerr : indicatesError error = false) :
    Handler.get h = none
    ∧ ffi_on_deinit impl h = none
    ∧ ffi_on_start impl h = none
    ∧ ffi_on_exit impl h = none
    ∧ ffi_on_update impl h = none
    ∧ ffi_on_vpad impl indicatesError h chan buffers count error = none
    ∧ ffi_on_kpad impl indicatesError h chan data size error = none := by
  have hg : h.get = none := by simp [Handler.get, OnceLock.get, hempty]
  refine ⟨hg, ?_, ?_, ?_, ?_, ?_, ?_⟩ <;>
    simp [ffi_on_deinit, ffi_on_start, ffi_on_exit, ffi_on_update,
      ffi_on_vpad, ffi_on_kpad, hg, hnoerr]

/-- Witness for `access_before_init_fails` at a concrete input. -/
theorem access_before_init_fails_witness :
    Handler.get (Handler.new Nat) = none
    ∧ ffi_on_deinit implN (Handler.new Nat) = none
    ∧ ffi_on_start implN (Handler.new Nat) = none
    ∧ ffi_on_exit implN (Handler.new Nat) = none
    ∧ ffi_on_update implN (Handler.new Nat) = none
    ∧ ffi_on_vpad implN indN (Handler.new Nat) 0 [3] 1 0 = none
    ∧ ffi_on_kpad implN indN (Handler.new Nat) 0 [3] 1 0 = none :=
  access_before_init_fails implN indN (Handler.new Nat) 0 1 1 0 [3] [3]
    rfl (by decide)

/-- The VPAD trampoline emits only `onInputCalled` events, never
`originalCalled`. -/
theorem ffi_on_vpad_events {P : Type} (impl : PluginImpl P)
    (indicatesError : Nat → Bool) (h : Handler P) (chan : Nat)
    (buffers : List VPADStatus) (count error : Nat)
    (h2 : Handler P) (bufs : List VPADStatus) (evs : List Event)
    (heq : ffi_on_vpad impl indicatesError h chan buffers count error
      = some (h2, bufs, evs)) :
    ∀ e ∈ evs, ∃ port st, e = Event.onInputCalled port st := by
  unfold ffi_on_vpad at heq
  split at heq
  · simp only [Option.some.injEq, Prod.mk.injEq] at heq
    rcases heq with ⟨-, -, rfl⟩
    intro e he
    simp at he
  · split at heq
    · exact absurd heq (by simp)
    · split at heq
      · exact absurd heq (by simp)
      · simp only [Option.some.injEq, Prod.mk.injEq] at heq
        rcases heq with ⟨-, -, rfl⟩
        intro e he
        simp only [List.mem_singleton] at he
        exact ⟨_, _, he⟩

/-- The KPAD trampoline emits only `onInputCalled` events, never
`originalCalled`. -/
theorem ffi_on_kpad_events {P : Type} (impl : PluginImpl P)
    (indicatesError : Nat → Bool) (h : Handler P) (chan : Nat)
    (data : List KPADStatus) (size error : Nat)
    (h2 : Handler P) (data2 : List KPADStatus) (evs : List Event)
    (heq : ffi_on_kpad impl indicatesError h chan data size error
      = some (h2, data2, evs)) :
    ∀ e ∈ evs, ∃ port st, e = Event.onInputCalled port st := by
  unfold ffi_on_kpad at heq
  split at heq
  · simp only [Option.some.injEq, Prod.mk.injEq] at heq
    rcases heq with ⟨-, -, rfl⟩
    intro e he
    simp at he
  · split at heq
    · exact absurd heq (by simp)
    · split at heq
      · exact absurd heq (by simp)
      · simp only [Option.some.injEq, Prod.mk.injEq] at heq
        rcases heq with ⟨-, -, rfl⟩
        intro e he
        simp only [List.mem_singleton] at he
        exact ⟨_, _, he⟩

/-- The update trampoline, when it runs, emits exactly one `onUpdateCalled`
event. -/
theorem ffi_on_update_events {P : Type} (impl : PluginImpl P) (h : Handler P)
    (h2 : Handler P) (evs : List Event)
    (heq : ffi_on_update impl h = some (h2, evs)) :
    evs = [Event.onUpdateCalled] := by
  unfold ffi_on_update at heq
  split at heq
  · exact absurd heq (by simp)
  · simp only [Option.some.injEq, Prod.mk.injEq] at heq
    exact heq.2.symm

/-- A concrete original `VPADRead` implementation for instantiating the
chained-hook theorem. -/
def hookedV0 : Nat → List VPADStatus → Nat → Nat → Int × List VPADStatus × Nat :=
  fun _ _ _ _ => (42, [13, 6], 0)

/-- A concrete original `KPADReadEx` implementation for instantiating the
chained-hook theorem. -/
def hookedK0 : Nat → List KPADStatus → Nat → Nat → Int × List KPADStatus × Nat :=
  fun _ _ _ _ => (7, [9], 0)

/-- Claim C5: in every chained hook invocation that completes, the original
host function runs first (its event strictly precedes every plugin event:
the trace starts with `originalCalled` and the plugin trampoline contributes
no further `originalCalled`), and the status finally returned to the host is
exactly the status the original function returned, unmodified by the
plugin. The frame-update hook likewise runs the original swap before the
plugin `on_update`. -/
theorem chained_hooks_original_first {P : Type} (impl : PluginImpl P)
    (indicatesError : Nat → Bool)
    (hookedV : Nat → List VPADStatus → Nat → Nat → Int × List VPADStatus × Nat)
    (hookedK : Nat → List KPADStatus → Nat → Nat → Int × List KPADStatus × Nat)
    (h : Handler P) (chan count size error : Nat)
    (buffers : List VPADStatus) (data : List KPADStatus)
    (statusV statusK : Int) (h2 h3 h4 : Handler P)
    (bufs : List VPADStatus) (data2 : List KPADStatus)
    (evsV evsK evsU : List Event)
    (hV : plugin_VPADRead impl indicatesError hookedV h chan buffers count error
      = some (statusV, h2, bufs, evsV))
    (hK : plugin_KPADReadEx impl indicatesError hookedK h chan data size error
      = some (statusK, h3, data2, evsK))
    (hU : plugin_GX2SwapScanBuffers impl h = some (h4, evsU)) :
    statusV = (hookedV chan buffers count error).1
    ∧ (∃ tevs, evsV = Event.originalCalled :: tevs
        ∧ Event.originalCalled ∉ tevs)
    ∧ statusK = (hookedK chan data size error).1
    ∧ (∃ tevs, evsK = Event.originalCalled :: tevs
        ∧ Event.originalCalled ∉ tevs)
    ∧ evsU = [Event.originalCalled, Event.onUpdateCalled] := by
  refine ⟨?_, ?_, ?_, ?_, ?_⟩
  · simp only [plugin_VPADRead] at hV
    cases hv : ffi_on_vpad impl indicatesError h chan
        (hookedV chan buffers count error).2.1 count
        (hookedV chan buffers count error).2.2 with
    | none => rw [hv] at hV; exact absurd hV (by simp)
    | some t =>
      rw [hv] at hV
      simp only [Option.some.injEq, Prod.mk.injEq] at hV
      exact hV.1.symm
  · simp only [plugin_VPADRead] at hV
    cases hv : ffi_on_vpad impl indicatesError h chan
        (hookedV chan buffers count error).2.1 count
        (hookedV chan buffers count error).2.2 with
    | none => rw [hv] at hV; exact absurd hV (by simp)
    | some t =>
      obtain ⟨h5, bufs5, evs5⟩ := t
      rw [hv] at hV
      simp only [Option.some.injEq, Prod.mk.injEq] at hV
      refine ⟨evs5, hV.2.2.2.symm, fun hmem => ?_⟩
      obtain ⟨port, st, he⟩ :=
        ffi_on_vpad_events impl indicatesError h chan
          (hookedV chan buffers count error).2.1 count
          (hookedV chan buffers count error).2.2 h5 bufs5 evs5 hv _ hmem
      exact Event.noConfusion he
  · simp only [plugin_KPADReadEx] at hK
    cases hk : ffi_on_kpad impl indicatesError h chan
        (hookedK chan data size error).2.1 size
        (hookedK chan data size error).2.2 with
    | none => rw [hk] at hK; exact absurd hK (by simp)
    | some t =>
      rw [hk] at hK
      simp only [Option.some.injEq, Prod.mk.injEq] at hK
      exact hK.1.symm
  · simp only [plugin_KPADReadEx] at hK
    cases hk : ffi_on_kpad impl indicatesError h chan
        (hookedK chan data size error).2.1 size
        (hookedK chan data size error).2.2 with
    | none => rw [hk] at hK; exact absurd hK (by simp)
    | some t =>
      obtain ⟨h5, data5, evs5⟩ := t
      rw [hk] at hK
      simp only [Option.some.injEq, Prod.mk.injEq] at hK
      refine ⟨evs5, hK.2.2.2.symm, fun hmem => ?_⟩
      obtain ⟨port, st, he⟩ :=
        ffi_on_kpad_events impl indicatesError h chan
          (hookedK chan data size error).2.1 size
          (hookedK chan data size error).2.2 h5 data5 evs5 hk _ hmem
      exact Event.noConfusion he
  · simp only [plugin_GX2SwapScanBuffers] at hU
    cases hu : ffi_on_update impl h with
    | none => rw [hu] at hU; exact absurd hU (by simp)
    | some t =>
      obtain ⟨h5, evs5⟩ := t
      rw [hu] at hU
      simp only [Option.some.injEq, Prod.mk.injEq] at hU
      rw [← hU.2, ffi_on_update_events impl h h5 evs5 hu]

/-- Witness for `chained_hooks_original_first` at a concrete input. -/
theorem chained_hooks_original_first_witness :
    (42 : Int) = (hookedV0 1 [1, 2] 2 3).1
    ∧ (∃ tevs, [Event.originalCalled,
          Event.onInputCalled Port.DRC (State.ofRaw 13)]
        = Event.originalCalled :: tevs ∧ Event.originalCalled ∉ tevs)
    ∧ (7 : Int) = (hookedK0 1 [4] 1 3).1
    ∧ (∃ tevs, [Event.originalCalled,
          Event.onInputCalled (Port.from_wpad 1) (State.ofRaw 9)]
        = Event.originalCalled :: tevs ∧ Event.originalCalled ∉ tevs)
    ∧ [Event.originalCalled, Event.onUpdateCalled]
        = [Event.originalCalled, Event.onUpdateCalled] :=
  chained_hooks_original_first implN indN hookedV0 hookedK0
    ⟨⟨some (Mutex.mk 0)⟩⟩ 1 2 1 3 [1, 2] [4] 42 7
    ⟨⟨some (Mutex.mk 13)⟩⟩ ⟨⟨some (Mutex.mk 9)⟩⟩ ⟨⟨some (Mutex.mk 4)⟩⟩
    [5, 6] [1]
    [Event.originalCalled, Event.onInputCalled Port.DRC (State.ofRaw 13)]
    [Event.originalCalled, Event.onInputCalled (Port.from_wpad 1) (State.ofRaw 9)]
    [Event.originalCalled, Event.onUpdateCalled]
    (by decide) (by decide) (by decide)

/-- Claim C6: the application state is created by the init trampoline (the
empty cell becomes set with the `on_init` result), every subsequent
trampoline transforms it into the result of the corresponding user method while
holding exclusive access (in this sequential embedding holding the lock is
owning the value), and the deinit trampoline applies the `on_deinit`
finaliser, logically destroying the state; the cell itself is not
deallocated afterwards, matching the note in the spec that the framework does not
forcibly prevent further calls. -/
theorem state_created_mutated_finalized {P : Type} (impl : PluginImpl P)
    (indicatesError : Nat → Bool) (r p : P) (chan count size error : Nat)
    (b : VPADStatus) (d : KPADStatus) (rest : List VPADStatus)
    (drest : List KPADStatus) (hnoerr : indicatesError error = false) :
    ffi_on_init (Handler.new P) r = ⟨⟨some (Mutex.mk r)⟩⟩
    ∧ ffi_on_start impl ⟨⟨some (Mutex.mk p)⟩⟩
        = some ⟨⟨some (Mutex.mk (impl.on_start p))⟩⟩
    ∧ ffi_on_exit impl ⟨⟨some (Mutex.mk p)⟩⟩
        = some ⟨⟨some (Mutex.mk (impl.on_exit p))⟩⟩
    ∧ ffi_on_update impl ⟨⟨some (Mutex.mk p)⟩⟩
        = some (⟨⟨some (Mutex.mk (impl.on_update p))⟩⟩, [Event.onUpdateCalled])
    ∧ (ffi_on_vpad impl indicatesError ⟨⟨some (Mutex.mk p)⟩⟩ chan (b :: rest)
        count error).map (fun t => t.1)
      = some ⟨⟨some (Mutex.mk (impl.on_input p Port.DRC (State.ofRaw b)).1)⟩⟩
    ∧ (ffi_on_kpad impl indicatesError ⟨⟨some (Mutex.mk p)⟩⟩ chan (d :: drest)
        size error).map (fun t => t.1)
      = some ⟨⟨some (Mutex.mk
          (impl.on_input p (Port.from_wpad chan) (State.ofRaw d)).1)⟩⟩
    ∧ ffi_on_deinit impl ⟨⟨some (Mutex.mk p)⟩⟩
        = some ⟨⟨some (Mutex.mk (impl.on_deinit p))⟩⟩ := by
  refine ⟨rfl, ?_, ?_, ?_, ?_, ?_, ?_⟩ <;>
    simp [ffi_on_start, ffi_on_exit, ffi_on_update, ffi_on_vpad, ffi_on_kpad,
      ffi_on_deinit, Handler.get, OnceLock.get, Mutex.lock, hnoerr]

/-- Witness for `state_created_mutated_finalized` at a concrete input. -/
theorem state_created_mutated_finalized_witness :
    ffi_on_init (Handler.new Nat) 6 = ⟨⟨some (Mutex.mk 6)⟩⟩
    ∧ ffi_on_start implN ⟨⟨some (Mutex.mk 6)⟩⟩
        = some ⟨⟨some (Mutex.mk (implN.on_start 6))⟩⟩
    ∧ ffi_on_exit implN ⟨⟨some (Mutex.mk 6)⟩⟩
        = some ⟨⟨some (Mutex.mk (implN.on_exit 6))⟩⟩
    ∧ ffi_on_update implN ⟨⟨some (Mutex.mk 6)⟩⟩
        = some (⟨⟨some (Mutex.mk (implN.on_update 6))⟩⟩, [Event.onUpdateCalled])
    ∧ (ffi_on_vpad implN indN ⟨⟨some (Mutex.mk 6)⟩⟩ 0 (3 :: []) 1 0).map
        (fun t => t.1)
      = some ⟨⟨some (Mutex.mk (implN.on_input 6 Port.DRC (State.ofRaw 3)).1)⟩⟩
    ∧ (ffi_on_kpad implN indN ⟨⟨some (Mutex.mk 6)⟩⟩ 0 (5 :: []) 1 0).map
        (fun t => t.1)
      = some ⟨⟨some (Mutex.mk
          (implN.on_input 6 (Port.from_wpad 0) (State.ofRaw 5)).1)⟩⟩
    ∧ ffi_on_deinit implN ⟨⟨some (Mutex.mk 6)⟩⟩
        = some ⟨⟨some (Mutex.mk (implN.on_deinit 6))⟩⟩ :=
  state_created_mutated_finalized implN indN 6 6 0 1 1 0 3 5 [] [] (by decide)

/-- Claim C7: both controller-family trampolines funnel into the one
`on_input` method — two plugin implementations that agree on `on_input`
behave identically on both trampolines — and the family/channel distinction
is carried entirely in the port passed to `on_input`: the VPAD trampoline
always reports `Port::DRC`, the KPAD trampoline always reports
`Port::from_wpad(chan)`, the two are never equal, and `from_wpad` is
injective in the channel. -/
theorem uniform_on_input_dispatch {P : Type} (impl impl2 : PluginImpl P)
    (indicatesError : Nat → Bool) (h : Handler P)
    (chan chan2 count size error : Nat) (buffers : List VPADStatus)
    (data : List KPADStatus) (hsame : impl.on_input = impl2.on_input) :
    ffi_on_vpad impl indicatesError h chan buffers count error
      = ffi_on_vpad impl2 indicatesError h chan buffers count error
    ∧ ffi_on_kpad impl indicatesError h chan data size error
      = ffi_on_kpad impl2 indicatesError h chan data size error
    ∧ (∀ h2 bufs evs,
        ffi_on_vpad impl indicatesError h chan buffers count error
          = some (h2, bufs, evs) →
        ∀ e ∈ evs, ∃ st, e = Event.onInputCalled Port.DRC st)
    ∧ (∀ h2 data2 evs,
        ffi_on_kpad impl indicatesError h chan data size error
          = some (h2, data2, evs) →
        ∀ e ∈ evs, ∃ st, e = Event.onInputCalled (Port.from_wpad chan) st)
    ∧ Port.DRC ≠ Port.from_wpad chan
    ∧ (Port.from_wpad chan = Port.from_wpad chan2 → chan = chan2) := by
  refine ⟨?_, ?_, ?_, ?_, ?_, ?_⟩
  · simp only [ffi_on_vpad, hsame]
  · simp only [ffi_on_kpad, hsame]
  · intro h2 bufs evs heq
    unfold ffi_on_vpad at heq
    split at heq
    · simp only [Option.some.injEq, Prod.mk.injEq] at heq
      rcases heq with ⟨-, -, rfl⟩
      intro e he
      simp at he
    · split at heq
      · exact absurd heq (by simp)
      · split at heq
        · exact absurd heq (by simp)
        · simp only [Option.some.injEq, Prod.mk.injEq] at heq
          rcases heq with ⟨-, -, rfl⟩
          intro e he
          simp only [List.mem_singleton] at he
          exact ⟨_, he⟩
  · intro h2 data2 evs heq
    unfold ffi_on_kpad at heq
    split at heq
    · simp only [Option.some.injEq, Prod.mk.injEq] at heq
      rcases heq with ⟨-, -, rfl⟩
      intro e he
      simp at he
    · split at heq
      · exact absurd heq (by simp)
      · split at heq
        · exact absurd heq (by simp)
        · simp only [Option.some.injEq, Prod.mk.injEq] at heq
          rcases heq with ⟨-, -, rfl⟩
          intro e he
          simp only [List.mem_singleton] at he
          exact ⟨_, he⟩
  · simp [Port.from_wpad]
  · simp [Port.from_wpad]

/-- Witness for `uniform_on_input_dispatch` at a concrete input. -/
theorem uniform_on_input_dispatch_witness :
    ffi_on_vpad implN indN (Handler.new Nat) 1 [3] 1 0
      = ffi_on_vpad implN indN (Handler.new Nat) 1 [3] 1 0
    ∧ ffi_on_kpad implN indN (Handler.new Nat) 1 [5] 1 0
      = ffi_on_kpad implN indN (Handler.new Nat) 1 [5] 1 0
    ∧ (∀ h2 bufs evs,
        ffi_on_vpad implN indN (Handler.new Nat) 1 [3] 1 0
          = some (h2, bufs, evs) →
        ∀ e ∈ evs, ∃ st, e = Event.onInputCalled Port.DRC st)
    ∧ (∀ h2 data2 evs,
        ffi_on_kpad implN indN (Handler.new Nat) 1 [5] 1 0
          = some (h2, data2, evs) →
        ∀ e ∈ evs, ∃ st, e = Event.onInputCalled (Port.from_wpad 1) st)
    ∧ Port.DRC ≠ Port.from_wpad 1
    ∧ (Port.from_wpad 1 = Port.from_wpad 2 → 1 = 2) :=
  uniform_on_input_dispatch implN implN indN (Handler.new Nat) 1 2 1 1 0
    [3] [5] rfl

/-- Claim C10: a VPAD trampoline invocation with at least one record and no
error condition reads and merges only the first record — every later record
is returned unchanged — and ignores both the `count` and the `chan`
argument: the result is the same for any channel and count, and `on_input`
always receives the fixed port `Port::DRC`. -/
theorem vpad_first_record_only {P : Type} (impl : PluginImpl P)
    (indicatesError : Nat → Bool) (p : P) (h : Handler P)
    (chan count error : Nat) (b : VPADStatus) (rest buffers : List VPADStatus)
    (hcount : 1 ≤ count) (hnoerr : indicatesError error = false) :
    ffi_on_vpad impl indicatesError ⟨⟨some (Mutex.mk p)⟩⟩ chan (b :: rest)
        count error
      = some (⟨⟨some (Mutex.mk (impl.on_input p Port.DRC (State.ofRaw b)).1)⟩⟩,
              (b &&& (impl.on_input p Port.DRC (State.ofRaw b)).2) :: rest,
              [Event.onInputCalled Port.DRC (State.ofRaw b)])
    ∧ (∀ chan2 count2,
        ffi_on_vpad impl indicatesError h chan2 buffers count2 error
          = ffi_on_vpad impl indicatesError h chan buffers count error) := by
  constructor
  · simp [ffi_on_vpad, hnoerr, Handler.get, OnceLock.get, Mutex.lock]
  · intro chan2 count2
    rfl

/-- Witness for `vpad_first_record_only` at a concrete input. -/
theorem vpad_first_record_only_witness :
    ffi_on_vpad implN indN ⟨⟨some (Mutex.mk 1)⟩⟩ 9 (6 :: [8, 2]) 3 0
      = some (⟨⟨some (Mutex.mk (implN.on_input 1 Port.DRC (State.ofRaw 6)).1)⟩⟩,
              (6 &&& (implN.on_input 1 Port.DRC (State.ofRaw 6)).2) :: [8, 2],
              [Event.onInputCalled Port.DRC (State.ofRaw 6)])
    ∧ (∀ chan2 count2,
        ffi_on_vpad implN indN (Handler.new Nat) chan2 [4] count2 0
          = ffi_on_vpad implN indN (Handler.new Nat) 9 [4] 3 0) :=
  vpad_first_record_only implN indN 1 (Handler.new Nat) 9 3 0 6 [8, 2] [4]
    (by decide) (by decide)

end Wupf
